import Mathlib

/-!
Verification development for the AMBOSS article scraper (amboss_scraper.py).

The extraction/formatting pipeline of the scraper is a pure transformation of
a parsed DOM tree into section records and rendered strings.  We embed the
DOM as an inductive tree, translate the pipeline functions, and prove or
refute the specified properties.

Conventions of the embedding:
 - a BeautifulSoup tag is a Node.elem with tag name, class list, attribute
   list and children; a NavigableString is a Node.text;
 - get_text, find, find_all are modelled by structural traversals matching
   the library semantics used by the scraper (find/find_all search the
   descendants of the node in document order; recursive=False restricts to
   direct children; a class filter given a lambda matches an element if any
   single class value satisfies it);
 - Python strings are Lean Strings; fueled recursion (fuel bounded by the
   input length) is used where Python loops consume a non-structural amount
   of input, and the fuel argument is always instantiated so that it cannot
   run out.
-/

set_option linter.unusedVariables false

/-! ### Python text primitives -/

/-- Whitespace characters recognised by Python str.split and str.strip. -/
def isPySpace (c : Char) : Bool :=
  c = ' ' ∨ c = '\t' ∨ c = '\n' ∨ c = '\r' ∨ c = '\x0b' ∨ c = '\x0c'

/-- One step of splitting a character list into whitespace-free words. -/
def wordsStep (c : Char) : List Char × List (List Char) → List Char × List (List Char)
  | (cur, acc) =>
    if isPySpace c then ([], if cur = [] then acc else cur :: acc)
    else (c :: cur, acc)

/-- Python str.split() with no argument: maximal whitespace-free words. -/
def wordsWs (l : List Char) : List (List Char) :=
  match l.foldr wordsStep ([], []) with
  | (cur, acc) => if cur = [] then acc else cur :: acc

/-- Join words with single spaces: the Python idiom (space).join(s.split()). -/
def joinWords : List (List Char) → List Char
  | [] => []
  | [w] => w
  | w :: ws => w ++ ' ' :: joinWords ws

/-- Python str.strip(): drop leading and trailing whitespace. -/
def stripWs (l : List Char) : List Char :=
  ((l.dropWhile isPySpace).reverse.dropWhile isPySpace).reverse

/-- Does pat occur as a leading run of l? -/
def leadMatch : List Char → List Char → Bool
  | [], _ => true
  | _ :: _, [] => false
  | p :: ps, c :: cs => p = c ∧ leadMatch ps cs

/-- Python substring containment (pat in s). -/
def hasSub (pat : List Char) : List Char → Bool
  | [] => pat = []
  | c :: cs => leadMatch pat (c :: cs) ∨ hasSub pat cs

/-- Consume one bracketed integer reference group, returning the remainder;
this is one match of the citation regex group. -/
def citeGroup : List Char → Option (List Char)
  | '[' :: rest =>
      match rest.dropWhile Char.isDigit with
      | ']' :: r => if rest.takeWhile Char.isDigit = [] then none else some r
      | _ => none
  | _ => none

/-- Fueled scan removing every citation-number group, the effect of the
re.sub with the bracketed-reference pattern in clean_text. -/
def removeCitesF : Nat → List Char → List Char
  | 0, l => l
  | _ + 1, [] => []
  | fuel + 1, c :: cs =>
    match citeGroup (c :: cs) with
    | some r => removeCitesF fuel r
    | none => c :: removeCitesF fuel cs

def removeCites (l : List Char) : List Char := removeCitesF l.length l

/-- Fueled scan implementing Python str.replace(pat, empty string):
non-overlapping left-to-right removal of every occurrence of pat. -/
def pyRemoveF (pat : List Char) : Nat → List Char → List Char
  | 0, l => l
  | _ + 1, [] => []
  | fuel + 1, c :: cs =>
    if leadMatch pat (c :: cs) ∧ pat ≠ [] then
      pyRemoveF pat fuel ((c :: cs).drop pat.length)
    else
      c :: pyRemoveF pat fuel cs

def pyRemove (pat : List Char) (l : List Char) : List Char := pyRemoveF pat l.length l

/-- clean_text of the scraper: collapse whitespace runs, remove bracketed
reference markers, delete the fixed UI-chrome substrings, and trim. -/
def clean_text (s : String) : String :=
  let t1 := joinWords (wordsWs s.data)
  let t2 := removeCites t1
  let t3 := pyRemove "Feedback".data
      (pyRemove "Notes".data
        (pyRemove "Collapse".data
          (pyRemove "Table Quiz".data
            (pyRemove "Maximize table".data t2))))
  String.mk (stripWs t3)

/-- Python str.strip() on a String. -/
def pyStrip (s : String) : String := String.mk (stripWs s.data)

/-- Python str.lower() (ASCII case folding, which is all the scraper needs). -/
def pyLower (s : String) : String := String.mk (s.data.map Char.toLower)

/-- Python sep.join(parts). -/
def joinSep (sep : String) : List String → String
  | [] => ""
  | [s] => s
  | s :: rest => s ++ sep ++ joinSep sep rest

/-- Python substring test on Strings. -/
def strIn (pat s : String) : Bool := hasSub pat.data s.data

/-- Python str.endswith for a literal suffix. -/
def endsWithStr (suf s : String) : Bool := leadMatch suf.data.reverse s.data.reverse

/-- Python slicing s[:-n]. -/
def dropLastN (n : Nat) (s : String) : String := String.mk (s.data.take (s.data.length - n))

example : clean_text "  Epidemiology [1][2]  and  more Notes " = "Epidemiology  and more" := rfl
example : clean_text "a | b" = "a | b" := rfl
example : pyLower "Clinical FEATURES" = "clinical features" := rfl
example : strIn "references" (pyLower "My References") = true := rfl

/-! ### The DOM tree -/

/-- A parsed DOM node: an element with tag, class list, attributes and
children, or a text node. -/
inductive Node where
  | text (s : String)
  | elem (tag : String) (classes : List String) (attrs : List (String × String)) (children : List Node)

/-- Direct children (the empty list for a text node). -/
def Node.childrenL : Node → List Node
  | .text _ => []
  | .elem _ _ _ cs => cs

/-- Class list of an element. -/
def Node.classesL : Node → List String
  | .text _ => []
  | .elem _ cls _ _ => cls

/-- Attribute lookup with a default, the Python tag.get(name, dflt). -/
def Node.attrD (n : Node) (name dflt : String) : String :=
  match n with
  | .text _ => dflt
  | .elem _ _ attrs _ =>
    match attrs.find? (fun p => p.1 = name) with
    | some p => p.2
    | none => dflt

mutual
/-- Concatenated text of all descendants: BeautifulSoup get_text(). -/
def Node.getText : Node → String
  | .text s => s
  | .elem _ _ _ cs => getTextL cs
def getTextL : List Node → String
  | [] => ""
  | n :: ns => n.getText ++ getTextL ns
end

mutual
/-- First descendant (preorder) satisfying p: BeautifulSoup find. -/
def findN (p : Node → Bool) : Node → Option Node
  | .text _ => none
  | .elem _ _ _ cs => findL p cs
def findL (p : Node → Bool) : List Node → Option Node
  | [] => none
  | n :: ns =>
      if p n then some n
      else
        match findN p n with
        | some m => some m
        | none => findL p ns
end

mutual
/-- All descendants (preorder) satisfying p: BeautifulSoup find_all. -/
def collectN (p : Node → Bool) : Node → List Node
  | .text _ => []
  | .elem _ _ _ cs => collectL p cs
def collectL (p : Node → Bool) : List Node → List Node
  | [] => []
  | n :: ns => (if p n then [n] else []) ++ collectN p n ++ collectL p ns
end

mutual
/-- Node count, used only to compute sufficient fuel for nested-list descent. -/
def Node.size : Node → Nat
  | .text _ => 1
  | .elem _ _ _ cs => 1 + sizeL cs
def sizeL : List Node → Nat
  | [] => 0
  | n :: ns => 1 + n.size + sizeL ns
end

/-- Tag-name test (text nodes never match a tag filter). -/
def isTag (t : String) : Node → Bool
  | .elem nm _ _ _ => nm = t
  | .text _ => false

/-- Tag-name-in-list test, for find_all with a list of names. -/
def tagIn (ts : List String) : Node → Bool
  | .elem nm _ _ _ => ts.contains nm
  | .text _ => false

def isUl : Node → Bool := isTag "ul"
def isLi : Node → Bool := isTag "li"

/-- Element whose class list contains the exact value c (a string class_
filter in BeautifulSoup matches any one of the class values). -/
def hasClass (c : String) (n : Node) : Bool := n.classesL.contains c

/-- Element for which some single class value satisfies p (a callable class_
filter is applied to each class value in turn). -/
def anyClass (p : String → Bool) (n : Node) : Bool := n.classesL.any p

/-- Element carrying a given data attribute value. -/
def hasAttrVal (name v : String) (n : Node) : Bool :=
  match n with
  | .text _ => false
  | .elem _ _ attrs _ => (attrs.find? (fun q => q.1 = name)).any (fun q => q.2 = v)


/-! ### ListFormatter (process_list) -/

/-- Direct text parts of a list item: cleaned text of each child, stopping
at (and excluding) the first directly nested list, as in the item loops of
process_list and of the table-cell list renderer. -/
def textPartsUntilUl : List Node → List String
  | [] => []
  | n :: ns =>
    if isUl n then []
    else
      let t := clean_text n.getText
      if t = "" then textPartsUntilUl ns else t :: textPartsUntilUl ns

/-- First directly nested list among the children: li.find(ul, recursive=False). -/
def firstUl : List Node → Option Node
  | [] => none
  | n :: ns => if isUl n then some n else firstUl ns

/-- The item text: space-joined direct parts, stripped. -/
def liText (li : Node) : String := pyStrip (joinSep " " (textPartsUntilUl li.childrenL))

/-- Fueled body of process_list; fuel bounds the nesting depth and is always
called with at least the size of the node, so it never runs out. -/
def plF : Nat → Node → List String
  | 0, _ => []
  | fuel + 1, ul =>
    (ul.childrenL.filter isLi).flatMap (fun li =>
      (if liText li = "" then ["<li>"] else ["<li>" ++ liText li]) ++
      (match firstUl li.childrenL with
       | some u => ["<ul>"] ++ plF fuel u ++ ["</ul>"]
       | none => []) ++
      ["</li>"])

/-- process_list of the scraper: flat tag list for a (possibly nested) ul. -/
def process_list (ul : Node) : List String := plF ul.size ul

/-! ### TableFormatter (format_table_with_bullets) -/

/-- Fueled body of the table-cell list renderer process_list_item: bullet
lines for one list item and its nested items. -/
def cellLiF : Nat → String → String → Node → List String
  | 0, _, _, _ => []
  | fuel + 1, glyph, ind, li =>
    let t := pyStrip (joinSep " " (textPartsUntilUl li.childrenL))
    (if t = "" then [] else [ind ++ glyph ++ " " ++ t]) ++
    (match firstUl li.childrenL with
     | some u => (u.childrenL.filter isLi).flatMap
         (cellLiF fuel "◦" "&nbsp;&nbsp;&nbsp;&nbsp;")
     | none => [])

/-- Escape the column delimiter: Python text.replace(pipe, backslash-pipe). -/
def escPipes : List Char → List Char
  | [] => []
  | c :: cs => if c = '|' then '\\' :: '|' :: escPipes cs else c :: escPipes cs

/-- Replace newlines by spaces: Python text.replace(newline, space). -/
def nlToSpace (l : List Char) : List Char :=
  l.map (fun c => if c = '\n' then ' ' else c)

/-- One rendered body cell of format_table_with_bullets: bullet lines joined
by the line-break marker when the cell directly contains lists, otherwise
the cleaned text; the delimiter is escaped in both branches. -/
def cellString (td : Node) : String :=
  let uls := td.childrenL.filter isUl
  if uls.isEmpty then
    let t := clean_text td.getText
    if t ≠ "" then String.mk (escPipes (nlToSpace t.data)) else ""
  else
    let bullets := uls.flatMap (fun u =>
      (u.childrenL.filter isLi).flatMap (fun li => cellLiF li.size "•" "" li))
    String.mk (escPipes (joinSep "<br/>" bullets).data)

/-- A rendered table row: the delimiter-joined cells with border delimiters. -/
def rowString (cells : List String) : String := "| " ++ joinSep " | " cells ++ " |"

/-- Header rows (the header line and the dash separator line) of
format_table_with_bullets; empty if no thead, no tr in it, or no cells. -/
def headerRowStrings (tbl : Node) : List String :=
  match findN (isTag "thead") tbl with
  | none => []
  | some thead =>
    match findN (isTag "tr") thead with
    | none => []
    | some hr =>
      let headers := (collectN (tagIn ["th", "td"]) hr).map (fun th =>
        let t := clean_text th.getText
        if t = "" then " " else t)
      if headers = [] then []
      else [rowString headers, rowString (List.replicate headers.length "---")]

/-- Body rows of format_table_with_bullets: one row string per tr found in
the tbody (rows with no cells are dropped). -/
def bodyRowStrings (tbl : Node) : List String :=
  match findN (isTag "tbody") tbl with
  | none => []
  | some tbody =>
    (collectN (isTag "tr") tbody).flatMap (fun tr =>
      let cells := (collectN (tagIn ["td", "th"]) tr).map cellString
      if cells = [] then [] else [rowString cells])

/-- The intermediate rows list built by format_table_with_bullets. -/
def tableRowStrings (tbl : Node) : List String :=
  headerRowStrings tbl ++ bodyRowStrings tbl

/-- Split a character list at every occurrence of the delimiter d. -/
def splitOnC (d : Char) : List Char → List (List Char)
  | [] => [[]]
  | c :: cs =>
    if c = d then [] :: splitOnC d cs
    else
      match splitOnC d cs with
      | [] => [[c]]
      | f :: rest => (c :: f) :: rest

/-- Python row.split(delimiter)[1:-1], the column extraction used when the
rows list is assembled into the final table markup. -/
def colsOf (r : String) : List String :=
  (((splitOnC '|' r.data).drop 1).dropLast).map String.mk

/-- Final assembly of format_table_with_bullets: the first row is rendered
as the header line, rows from index 2 on as the body lines. -/
def assembleTable (rows : List String) : String :=
  match rows with
  | [] => ""
  | r0 :: _ =>
    "\n<table>\n<thead>\n<tr>\n" ++
    joinSep "\n" ((colsOf r0).map (fun h => "<th>" ++ h ++ "</th>")) ++
    "\n</tr>\n</thead>\n<tbody>\n" ++
    joinSep "\n" ((rows.drop 2).map (fun row =>
      "<tr>\n" ++ joinSep "\n" ((colsOf row).map (fun c => "<td>" ++ c ++ "</td>")) ++ "\n</tr>")) ++
    "\n</tbody>\n</table>\n"

/-- format_table_with_bullets of the scraper. -/
def format_table_with_bullets (tbl : Node) : String :=
  assembleTable (tableRowStrings tbl)


/-! ### Image extraction (extract_image_info) -/

/-- The formatted image markup emitted for a resolved URL and caption. -/
def imgHtml (url cap : String) : String :=
  "<div style=\"text-align: center; margin: 20px 0;\"><img src=\"" ++ url ++
  "\" alt=\"" ++ cap ++ "\" width=\"400\" style=\"max-width: 100%; height: auto;\"><p><em>" ++
  cap ++ "</em></p></div>"

/-- extract_image_info of the scraper: resolve the img URL (protocol-relative
and path-absolute prefixes), resolve the caption (title attribute, nested
caption span text, constant placeholder), drop the image without a URL. -/
def extract_image_info (span : Node) : String :=
  match findN (isTag "img") span with
  | none => ""
  | some img =>
    let url0 := img.attrD "src" ""
    if url0 = "" then ""
    else
      let url :=
        if leadMatch "//".data url0.data then "https:" ++ url0
        else if leadMatch "/".data url0.data then "https://next.amboss.com" ++ url0
        else url0
      let ta := img.attrD "title" ""
      let cap0 :=
        if ta ≠ "" then ta
        else
          match findN (fun n => isTag "span" n ∧ hasClass "thumbnail__image__title" n) span with
          | some sp => sp.getText
          | none => ""
      let cap := if cap0 = "" then "Medical Image" else cap0
      imgHtml url cap

/-! ### Generic content (extract_generic_content) -/

/-- extract_generic_content of the scraper: skip the container classes that
are handled elsewhere, skip anything with a direct list/table/container
child, and emit a paragraph only for cleaned text longer than 20 characters
(the inner threshold of 10 is subsumed by the 20 one). -/
def extract_generic_content (el : Node) : String :=
  match el with
  | .text _ => ""
  | .elem nm cls _ children =>
    if nm = "div" ∧ (["table-wrapper", "paragraph", "merke", "cave", "content-box"].any
        (fun c => cls.contains c)) then ""
    else if (children.filter (tagIn ["ul", "table", "div"])).isEmpty = false then ""
    else
      let t := clean_text el.getText
      if t ≠ "" ∧ t.length > 10 then
        (if t.length > 20 then "<p>" ++ t ++ "</p>" else "")
      else ""

/-! ### Section content (extract_content_from_section) -/

/-- Content-box line for the note kind. -/
def noteBox (t : String) : String :=
  "<div class=\"content-box note\">💡 **Note:** " ++ t ++ "</div>"

/-- Content-box line for the warning kind. -/
def warnBox (t : String) : String :=
  "<div class=\"content-box warning\">⚠️ **Warning:** " ++ t ++ "</div>"

/-- Content-box line for the tip kind. -/
def tipBox (t : String) : String :=
  "<div class=\"content-box tip\">📝 **Tip:** " ++ t ++ "</div>"

/-- Dispatch of one direct child of the content container, first match wins,
exactly as in the child loop of extract_content_from_section. -/
def dispatchChild (child : Node) : List String :=
  match child with
  | .text _ => []
  | .elem nm cls _ _ =>
    if nm = "h3" then
      let t := clean_text child.getText
      if t = "" then [] else ["<h3>" ++ t ++ "</h3>"]
    else if nm = "div" ∧ cls.contains "table-wrapper" then
      match findN (isTag "table") child with
      | some tbl =>
        let tc := format_table_with_bullets tbl
        if tc = "" then [] else [tc]
      | none => []
    else if nm = "ul" then
      let lc := process_list child
      if lc.isEmpty then [] else ["<ul>"] ++ lc ++ ["</ul>"]
    else if nm = "div" ∧ cls.contains "paragraph" then
      let imgs := collectN (fun n => isTag "span" n ∧ hasClass "thumbnail__image" n) child
      if imgs.isEmpty then
        let t := clean_text child.getText
        if t = "" then [] else ["<p>" ++ t ++ "</p>"]
      else
        imgs.flatMap (fun im =>
          let ic := extract_image_info im
          if ic = "" then [] else ["<div class=\"image-container\">", ic, "</div>"])
    else if nm = "div" ∧ (cls.contains "merke" ∨ cls.contains "cave" ∨ cls.contains "content-box") then
      let t := clean_text child.getText
      if t = "" then []
      else if cls.contains "merke" ∨ cls.contains "green" then [noteBox t]
      else if cls.contains "cave" ∨ cls.contains "red" then [warnBox t]
      else if cls.contains "blue" then [tipBox t]
      else [noteBox t]
    else if nm = "p" then
      let t := clean_text child.getText
      if t = "" then [] else ["<p>" ++ t ++ "</p>"]
    else
      let g := extract_generic_content child
      if g = "" then [] else [g]

/-- All content parts produced by iterating the direct children. -/
def childParts : List Node → List String
  | [] => []
  | c :: rest => dispatchChild c ++ childParts rest

/-- extract_content_from_section of the scraper: locate the shown (else the
hidden) content container, descend into a base-styles wrapper when present,
dispatch every direct child and join the parts with newlines. -/
def extract_content_from_section (sec : Node) : String :=
  let container :=
    match findN (fun n => isTag "div" n ∧ hasAttrVal "data-e2e-test-id" "section-content-is-shown" n) sec with
    | some c => some c
    | none => findN (fun n => isTag "div" n ∧ hasAttrVal "data-e2e-test-id" "section-content-is-hidden" n) sec
  match container with
  | none => ""
  | some c =>
    let base :=
      match findN (fun n => isTag "div" n ∧ anyClass (fun x => strIn "baseStyles" x) n) c with
      | some b => b
      | none => c
    joinSep "\n" (childParts base.childrenL)


/-! ### Section and article titles -/

/-- extract_section_title_from_element of the scraper: cleaned text of the
first h3 found anywhere in the section, if that text is non-empty. -/
def extract_section_title_from_element (sec : Node) : Option String :=
  match findN (isTag "h3") sec with
  | some h3 =>
    let t := clean_text h3.getText
    if t = "" then none else some t
  | none => none

/-- The five-strategy section title resolver extract_section_title of the
scraper (it is defined in the source but not called by extract_sections). -/
def extract_section_title (sec : Node) : Option String :=
  let s1 :=
    match findN (fun n => isTag "div" n ∧ hasAttrVal "data-e2e-test-id" "particle-header" n) sec with
    | some he =>
      (match findN (isTag "h3") he with
       | some h3 =>
         let t := clean_text h3.getText
         if t = "" then none else some t
       | none => none)
    | none => none
  match s1 with
  | some t => some t
  | none =>
    let s2 :=
      match findN (fun n => isTag "div" n ∧ anyClass (fun x => strIn "header" (pyLower x)) n) sec with
      | some hc =>
        (match findN (isTag "h3") hc with
         | some h3 =>
           let t := clean_text h3.getText
           if t = "" then none else some t
         | none => none)
      | none => none
    match s2 with
    | some t => some t
    | none =>
      let s3 :=
        match findN (isTag "h3") sec with
        | some h3 =>
          let t := clean_text h3.getText
          if t = "" then none else some t
        | none => none
      match s3 with
      | some t => some t
      | none =>
        let kw := fun (x : String) =>
          strIn "header" (pyLower x) ∨ strIn "title" (pyLower x) ∨ strIn "button" (pyLower x)
        let s4 :=
          (collectN (fun n => tagIn ["button", "div"] n ∧ anyClass kw n) sec).foldl
            (fun acc b =>
              match acc with
              | some t => some t
              | none =>
                let t := clean_text b.getText
                if t ≠ "" ∧ t.length < 100 then some t else none)
            none
        match s4 with
        | some t => some t
        | none =>
          (((collectN (tagIn ["div", "span"]) sec).take 10).foldl
            (fun acc el =>
              match acc with
              | some t => some t
              | none =>
                if el.classesL.isEmpty then none
                else
                  let classes := joinSep " " el.classesL
                  if strIn "header" (pyLower classes) ∨ strIn "title" (pyLower classes) then
                    let t := clean_text el.getText
                    if t ≠ "" ∧ 5 < t.length ∧ t.length < 100 then some t else none
                  else none)
            none)

/-- The or-chain of the second try: an h1 inside the article header, else an
h2, else a title-classed element. -/
def headerTitleElem (ah : Node) : Option Node :=
  match findN (isTag "h1") ah with
  | some e => some e
  | none =>
    match findN (isTag "h2") ah with
    | some e => some e
    | none => findN (fun n => anyClass (fun x => strIn "title" (pyLower x)) n) ah

/-- The third try of extract_article_title_from_soup: the first h1 of the
document when its cleaned text is non-empty, else the constant fallback. -/
def firstH1Title (soup : Node) : String :=
  match findN (isTag "h1") soup with
  | some h1 =>
    let t := clean_text h1.getText
    if t = "" then "Medical Content" else t
  | none => "Medical Content"

/-- The second and third tries of extract_article_title_from_soup: when the
article-header marker holds a heading-like element, its cleaned text is
returned unconditionally. -/
def articleTitleFallback (soup : Node) : String :=
  match findN (hasAttrVal "data-e2e-test-id" "articleHeader") soup with
  | some ah =>
    (match headerTitleElem ah with
     | some e => clean_text e.getText
     | none => firstH1Title soup)
  | none => firstH1Title soup

/-- extract_article_title_from_soup of the scraper: the page title with the
trailing site suffix stripped, else the article-header heading, else the
first h1, else the constant fallback. -/
def extract_article_title_from_soup (soup : Node) : String :=
  match findN (isTag "title") soup with
  | some tt =>
    let t0 := pyStrip tt.getText
    let t1 := if endsWithStr " - AMBOSS" t0 then pyStrip (dropLastN 9 t0) else t0
    if t1 = "" then articleTitleFallback soup else t1
  | none => articleTitleFallback soup

/-! ### Section extraction (extract_sections) -/

/-- One extracted section record. -/
structure Section where
  title : String
  content : String
deriving Repr, DecidableEq

/-- The title stored for the section at (0-based) position i: the h3-based
title if found, else the positional placeholder. -/
def sectionTitleAt (sec : Node) (i : Nat) : String :=
  match extract_section_title_from_element sec with
  | some t => if t = "" then "Section " ++ toString (i + 1) else t
  | none => "Section " ++ toString (i + 1)

/-- The per-element loop of extract_sections over the found section nodes,
carrying the enumeration index: resolve the title, skip a references
section before extracting content, keep the section if content is
non-empty. -/
def buildSections : Nat → List Node → List Section
  | _, [] => []
  | i, sec :: rest =>
    let title := sectionTitleAt sec i
    if strIn "references" (pyLower title) then buildSections (i + 1) rest
    else
      let content := extract_content_from_section sec
      if content = "" then buildSections (i + 1) rest
      else { title := title, content := content } :: buildSections (i + 1) rest

/-- The section-marker filter of extract_sections. -/
def isSectionMarker (n : Node) : Bool :=
  isTag "section" n ∧ hasAttrVal "data-e2e-test-id" "section-with-header" n

/-- All section nodes of the page, in document order. -/
def sectionNodes (soup : Node) : List Node := collectN isSectionMarker soup

/-- extract_sections of the scraper: the retained sections and the article
title. -/
def extract_sections (soup : Node) : List Section × String :=
  (buildSections 0 (sectionNodes soup), extract_article_title_from_soup soup)


/-! ### DocumentRenderer (format_output) -/

/-- The plain-text section lines, with 1-based numbering. -/
def fmtTextSecs : Nat → List Section → List String
  | _, [] => []
  | i, s :: rest =>
    ("=== Section " ++ toString i ++ ": " ++ s.title ++ " ===") :: s.content :: "" ::
      fmtTextSecs (i + 1) rest

/-- format_text of the scraper. -/
def format_text (sections : List Section) (article_title : Option String) : String :=
  joinSep "\n"
    ((match article_title with
      | some t => if t = "" then [] else ["# " ++ t, ""]
      | none => []) ++ fmtTextSecs 1 sections)

/-- The markdown section lines. -/
def fmtMdSecs : List Section → List String
  | [] => []
  | s :: rest => ("## " ++ s.title) :: "" :: s.content :: "" :: fmtMdSecs rest

/-- format_markdown of the scraper. -/
def format_markdown (sections : List Section) (article_title : Option String) : String :=
  joinSep "\n"
    ((match article_title with
      | some t => if t = "" then [] else ["# " ++ t, ""]
      | none => []) ++ fmtMdSecs sections)

/-- The fixed head of the HTML rendering, including the embedded styles
(source-faithful literal; braces and apostrophes written as escapes). -/
def htmlHeadParts (page_title : String) : List String :=
  [
    "<!DOCTYPE html>",
    "<html lang=\"en\">",
    "<head>",
    "    <meta charset=\"UTF-8\">",
    "    <meta name=\"viewport\" content=\"width=device-width, initial-scale=1.0\">",
    "    <title>" ++ page_title ++ "</title>",
    "    <style>",
    "        /* Print-friendly styles */",
    "        @media print \x7b",
    "            body \x7b ",
    "                font-family: \x27Times New Roman\x27, serif;",
    "                font-size: 12pt;",
    "                line-height: 1.4;",
    "                margin: 0.5in;",
    "                color: black;",
    "            \x7d",
    "            ",
    "            /* Section-level styling */",
    "            .section \x7b",
    "                margin-bottom: 20pt;",
    "            \x7d",
    "            ",
    "            /* Main section titles (h2) */",
    "            .section-title \x7b",
    "                font-size: 16pt;",
    "                font-weight: bold;",
    "                margin-top: 24pt;",
    "                margin-bottom: 12pt;",
    "                border-bottom: 2pt solid #333;",
    "                padding-bottom: 6pt;",
    "            \x7d",
    "            ",
    "            /* Subsection titles (h3) */",
    "            h3 \x7b",
    "                font-size: 14pt;",
    "                font-weight: bold;",
    "                margin-top: 18pt;",
    "                margin-bottom: 8pt;",
    "            \x7d",
    "            ",
    "            /* Sub-subsection titles (h4) */",
    "            h4 \x7b",
    "                font-size: 13pt;",
    "                font-weight: bold;",
    "                margin-top: 14pt;",
    "                margin-bottom: 6pt;",
    "            \x7d",
    "            ",
    "            /* Content boxes */",
    "            .content-box \x7b",
    "                border: 1pt solid #666;",
    "                padding: 8pt;",
    "                margin: 12pt 0;",
    "                background-color: #f9f9f9;",
    "            \x7d",
    "            .note \x7b border-left: 4pt solid #4CAF50; \x7d",
    "            .warning \x7b border-left: 4pt solid #f44336; \x7d",
    "            .tip \x7b border-left: 4pt solid #2196F3; \x7d",
    "            .important \x7b border-left: 4pt solid #FF9800; \x7d",
    "            ",
    "            /* Tables */",
    "            table \x7b",
    "                border-collapse: collapse;",
    "                width: 100%;",
    "                margin: 12pt 0;",
    "            \x7d",
    "            th, td \x7b",
    "                border: 1pt solid #333;",
    "                padding: 6pt;",
    "                text-align: left;",
    "                vertical-align: top;",
    "            \x7d",
    "            th \x7b",
    "                background-color: #f0f0f0;",
    "                font-weight: bold;",
    "            \x7d",
    "            ",
    "            /* Images */",
    "            img \x7b",
    "                max-width: 100%;",
    "                height: auto;",
    "                display: block;",
    "                margin: 12pt auto;",
    "            \x7d",
    "            ",
    "            /* Image containers */",
    "            .image-container \x7b",
    "                margin: 12pt 0;",
    "            \x7d",
    "            ",
    "            /* Lists */",
    "            ul, ol \x7b",
    "                margin: 8pt 0;",
    "                padding-left: 20pt;",
    "            \x7d",
    "            ",
    "            /* Individual list items */",
    "            li \x7b",
    "                margin: 4pt 0;",
    "            \x7d",
    "            ",
    "            /* Nested lists */",
    "            ul ul, ol ol, ul ol, ol ul \x7b",
    "                margin: 4pt 0;",
    "            \x7d",
    "            ",
    "            /* Paragraphs */",
    "            p \x7b",
    "                margin: 8pt 0;",
    "            \x7d",
    "        \x7d",
    "",
    "        /* Screen styles */",
    "        @media screen \x7b",
    "            body \x7b",
    "                font-family: -apple-system, BlinkMacSystemFont, \x27Segoe UI\x27, Roboto, sans-serif;",
    "                max-width: 800px;",
    "                margin: 0 auto;",
    "                padding: 20px;",
    "                line-height: 1.6;",
    "                background-color: #fff;",
    "            \x7d",
    "            .section \x7b",
    "                margin-bottom: 30px;",
    "                padding: 20px;",
    "                border-radius: 8px;",
    "                box-shadow: 0 2px 4px rgba(0,0,0,0.1);",
    "            \x7d",
    "            .section-title \x7b",
    "                font-size: 24px;",
    "                font-weight: bold;",
    "                margin-bottom: 15px;",
    "                color: #333;",
    "                border-bottom: 2px solid #007acc;",
    "                padding-bottom: 8px;",
    "            \x7d",
    "            .content-box \x7b",
    "                border-radius: 6px;",
    "                padding: 15px;",
    "                margin: 15px 0;",
    "            \x7d",
    "            .note \x7b ",
    "                background-color: #e8f5e8; ",
    "                border-left: 4px solid #4CAF50; ",
    "            \x7d",
    "            .warning \x7b ",
    "                background-color: #ffeaea; ",
    "                border-left: 4px solid #f44336; ",
    "            \x7d",
    "            .tip \x7b ",
    "                background-color: #e3f2fd; ",
    "                border-left: 4px solid #2196F3; ",
    "            \x7d",
    "            .important \x7b ",
    "                background-color: #fff3e0; ",
    "                border-left: 4px solid #FF9800; ",
    "            \x7d",
    "",
    "            table \x7b",
    "                border-collapse: collapse;",
    "                width: 100%;",
    "                margin: 15px 0;",
    "                box-shadow: 0 1px 3px rgba(0,0,0,0.1);",
    "            \x7d",
    "            th, td \x7b",
    "                border: 1px solid #ddd;",
    "                padding: 12px;",
    "                text-align: left;",
    "            \x7d",
    "            th \x7b",
    "                background-color: #f8f9fa;",
    "                font-weight: 600;",
    "            \x7d",
    "            tr:nth-child(even) \x7b",
    "                background-color: #f8f9fa;",
    "            \x7d",
    "        \x7d",
    "</style>",
    "</head>",
    "<body>"  ]

/-- The per-section HTML blocks, with 1-based ids. -/
def fmtHtmlSecs : Nat → List Section → List String
  | _, [] => []
  | i, s :: rest =>
    ("<div class=\"section\" id=\"section-" ++ toString i ++ "\">") ::
    ("<h2 class=\"section-title\">" ++ s.title ++ "</h2>") ::
    s.content :: "</div>" :: fmtHtmlSecs (i + 1) rest

/-- format_html of the scraper. -/
def format_html (sections : List Section) (article_title : Option String) : String :=
  let page_title :=
    match article_title with
    | some t => if t = "" then "AMBOSS Content" else t
    | none => "AMBOSS Content"
  let titleBlock :=
    match article_title with
    | some t =>
      if t = "" then []
      else
        ["<div class=\"main-title-container\" style=\"text-align: center; margin-bottom: 30px; border-bottom: 3px solid #007acc; padding-bottom: 15px;\">",
         "<h1 style=\"font-size: 28pt; color: #333; margin: 0;\">" ++ t ++ "</h1>",
         "</div>"]
    | none => []
  joinSep "\n"
    (htmlHeadParts page_title ++ titleBlock ++ fmtHtmlSecs 1 sections ++ ["</body>", "</html>"])

/-- format_output of the scraper: dispatch on the format identifier, raising
(modelled as Except.error) exactly on unsupported identifiers. -/
def format_output (sections : List Section) (output_format : String)
    (article_title : Option String) : Except String String :=
  if output_format = "text" then .ok (format_text sections article_title)
  else if output_format = "markdown" then .ok (format_markdown sections article_title)
  else if output_format = "html" then .ok (format_html sections article_title)
  else .error ("Unsupported output format: " ++ output_format)


/-! ### Specification-side definitions

These definitions follow the wording of the specification claims; the
theorems below compare them with the source translations above. -/

/-- The nested list model of the specification: an item with text and, when
a directly nested list is present, its recursively extracted children. -/
inductive LItem where
  | leaf (text : String)
  | node (text : String) (kids : List LItem)

/-- Modelled from the spec: for each direct item of a list node, the text is
the space-joined content up to the first directly nested list, and that
nested list (if present) is recursed and attached as the children, in
source order (fueled on nesting depth like the source translation). -/
def specItemsF : Nat → Node → List LItem
  | 0, _ => []
  | fuel + 1, ul =>
    (ul.childrenL.filter isLi).map (fun li =>
      match firstUl li.childrenL with
      | some u => .node (liText li) (specItemsF fuel u)
      | none => .leaf (liText li))

/-- The specification list model of a list node. -/
def specListItems (ul : Node) : List LItem := specItemsF ul.size ul

mutual
/-- Depth-first serialization of one model item into the tag vocabulary of
the list formatter. -/
def serializeItem : LItem → List String
  | .leaf t => (if t = "" then ["<li>"] else ["<li>" ++ t]) ++ ["</li>"]
  | .node t kids =>
    (if t = "" then ["<li>"] else ["<li>" ++ t]) ++
    (["<ul>"] ++ serializeL kids ++ ["</ul>"]) ++ ["</li>"]
/-- Depth-first serialization of a model item list. -/
def serializeL : List LItem → List String
  | [] => []
  | it :: its => serializeItem it ++ serializeL its
end

/-- Number of column-delimiter characters in a string. -/
def countPipe (s : String) : Nat := s.data.count '|'

/-- The number of columns recovered by splitting a rendered row on the
delimiter and discarding the two border fragments, exactly as the table
assembly itself recovers them. -/
def renderedColCount (r : String) : Nat := (colsOf r).length

/-- Modelled from the spec (claim C9 wording): the node has a
list/table/container descendant anywhere below it. -/
def hasComplexDesc (n : Node) : Bool :=
  (collectN (tagIn ["ul", "table", "div"]) n).isEmpty = false

/-- Modelled from the spec (amended C9): emit a paragraph iff the element is
not one of the specially handled containers, has no direct child element
that is a list/table/container, and its cleaned text exceeds 20 characters. -/
def specGenericEmit (el : Node) : Prop :=
  match el with
  | .text _ => False
  | .elem nm cls _ children =>
    ¬ (nm = "div" ∧ (["table-wrapper", "paragraph", "merke", "cave", "content-box"].any
        (fun c => cls.contains c)) = true) ∧
    (∀ c ∈ children, tagIn ["ul", "table", "div"] c = false) ∧
    (clean_text el.getText).length > 20

/-- Modelled from the spec (amended C4): the section title actually used by
extract_sections is the cleaned text of the first h3 anywhere in the
section when that is non-empty, else the positional placeholder. -/
def specH3Title (sec : Node) (i : Nat) : String :=
  match findN (isTag "h3") sec with
  | some h3 =>
    let t := clean_text h3.getText
    if t = "" then "Section " ++ toString (i + 1) else t
  | none => "Section " ++ toString (i + 1)

/-- Strategy one value: the declared page title, suffix-stripped, when
non-empty. -/
def specPageTitle (soup : Node) : Option String :=
  match findN (isTag "title") soup with
  | some tt =>
    let t0 := pyStrip tt.getText
    let t1 := if endsWithStr " - AMBOSS" t0 then pyStrip (dropLastN 9 t0) else t0
    if t1 = "" then none else some t1
  | none => none

/-- Strategy two value as the code computes it: the cleaned text of the
heading-like element inside the article-header marker, even when empty. -/
def specHeaderHeading (soup : Node) : Option String :=
  match findN (hasAttrVal "data-e2e-test-id" "articleHeader") soup with
  | some ah => (headerTitleElem ah).map (fun e => clean_text e.getText)
  | none => none

/-- Strategy two value as the claim states it: the same heading text, but
skipped when empty. -/
def specHeaderHeadingClaimed (soup : Node) : Option String :=
  match findN (hasAttrVal "data-e2e-test-id" "articleHeader") soup with
  | some ah =>
    (headerTitleElem ah).bind (fun e =>
      let t := clean_text e.getText
      if t = "" then none else some t)
  | none => none

/-- Strategy three value: the first h1 of the document, when its cleaned
text is non-empty. -/
def specFirstH1 (soup : Node) : Option String :=
  match findN (isTag "h1") soup with
  | some h1 =>
    let t := clean_text h1.getText
    if t = "" then none else some t
  | none => none

/-- Modelled from the spec (amended C7): strategy one (page title with the
trailing suffix stripped) and strategy three (first h1) are skipped when
empty, but strategy two (a heading or title-classed element inside the
article-header marker) returns its cleaned text even when that text is
empty; the constant fallback closes the cascade. -/
def specArticleTitle (soup : Node) : String :=
  (specPageTitle soup).getD
    ((specHeaderHeading soup).getD ((specFirstH1 soup).getD "Medical Content"))

/-- Modelled from the spec (claim C7 as written): the resolved title is the
first non-empty of the four cascade values with every stage skipped when
empty. -/
def specArticleTitleClaimed (soup : Node) : String :=
  (specPageTitle soup).getD
    ((specHeaderHeadingClaimed soup).getD ((specFirstH1 soup).getD "Medical Content"))

/-- Modelled from the spec (claim C8 wording): resolve the URL by the two
prefix rules, resolve the caption by the three-way cascade, drop the image
when no URL can be resolved. -/
def specImageInfo (span : Node) : String :=
  match findN (isTag "img") span with
  | none => ""
  | some img =>
    let url0 := img.attrD "src" ""
    if url0 = "" then ""
    else
      let url :=
        if leadMatch "//".data url0.data then "https:" ++ url0
        else if leadMatch "/".data url0.data then "https://next.amboss.com" ++ url0
        else url0
      let ta := img.attrD "title" ""
      let capSpanText :=
        match findN (fun n => isTag "span" n ∧ hasClass "thumbnail__image__title" n) span with
        | some sp => sp.getText
        | none => ""
      let cap :=
        if ta ≠ "" then ta
        else if capSpanText ≠ "" then capSpanText
        else "Medical Image"
      imgHtml url cap


/-! ### Concrete documents used by witnesses and counterexamples -/

/-- A section titled References (to be skipped). -/
def secRef : Node :=
  .elem "section" [] [("data-e2e-test-id", "section-with-header")]
    [.elem "h3" [] [] [.text "References"],
     .elem "div" [] [("data-e2e-test-id", "section-content-is-shown")]
       [.elem "p" [] [] [.text "Reference body text."]]]

/-- A section titled Clinical Features with one paragraph. -/
def secClin : Node :=
  .elem "section" [] [("data-e2e-test-id", "section-with-header")]
    [.elem "h3" [] [] [.text "Clinical Features"],
     .elem "div" [] [("data-e2e-test-id", "section-content-is-shown")]
       [.elem "p" [] [] [.text "Patients often present with a cough."]]]

/-- A page with a References section and a Clinical Features section. -/
def doc0 : Node := .elem "html" [] [] [.elem "body" [] [] [secRef, secClin]]

/-- The retained section of doc0. -/
def secClinRec : Section :=
  { title := "Clinical Features", content := "<p>Patients often present with a cough.</p>" }

/-- A section with no h3 but with a short-texted title-classed div, so the
five-strategy resolver and the pipeline resolver disagree on it. -/
def secC4 : Node :=
  .elem "section" [] [("data-e2e-test-id", "section-with-header")]
    [.elem "div" ["title"] [] [.text "Hello Everyone"],
     .elem "div" [] [("data-e2e-test-id", "section-content-is-shown")]
       [.elem "p" [] [] [.text "Some sufficiently long paragraph body."]]]

/-- A page holding only secC4. -/
def docC4 : Node := .elem "html" [] [] [secC4]

/-- The section record the pipeline extracts from docC4. -/
def secC4Rec : Section :=
  { title := "Section 1", content := "<p>Some sufficiently long paragraph body.</p>" }

/-- A body row with two cells whose first cell text contains the delimiter. -/
def trC2 : Node :=
  .elem "tr" [] []
    [.elem "td" [] [] [.text "a|b"],
     .elem "td" [] [] [.text "c"]]

/-- A table holding only that row. -/
def tblC2 : Node :=
  .elem "table" [] [] [.elem "tbody" [] [] [trC2]]

/-- A headerless table with two body rows (cell letters chosen so they do
not occur in the surrounding table markup). -/
def tblC3 : Node :=
  .elem "table" [] []
    [.elem "tbody" [] []
      [.elem "tr" [] [] [.elem "td" [] [] [.text "q"], .elem "td" [] [] [.text "w"]],
       .elem "tr" [] [] [.elem "td" [] [] [.text "x"], .elem "td" [] [] [.text "z"]]]]

/-- A page whose first h1 is non-empty but whose article-header marker holds
an h1 with no text, and which has no usable page title. -/
def soupC7 : Node :=
  .elem "html" [] []
    [.elem "h1" [] [] [.text "Pneumonia"],
     .elem "div" [] [("data-e2e-test-id", "articleHeader")] [.elem "h1" [] [] []]]

/-- A generic child with long text and a nested list below a direct p child. -/
def elC9 : Node :=
  .elem "span" [] []
    [.elem "p" [] [] [.elem "ul" [] [] [.elem "li" [] []
      [.text "twenty five characters of content here"]]]]

/-- A generic child with long text and no complex structure at all. -/
def elC9good : Node :=
  .elem "span" [] [] [.text "a paragraph with plenty of characters"]

/-- A list item with two directly nested sub-lists. -/
def liTwoSubs : Node :=
  .elem "li" [] [] [.text "tip",
    .elem "ul" [] [] [.elem "li" [] [] [.text "one"]],
    .elem "ul" [] [] [.elem "li" [] [] [.text "two"]]]

/-- The same item with only the first nested sub-list. -/
def liOneSub : Node :=
  .elem "li" [] [] [.text "tip",
    .elem "ul" [] [] [.elem "li" [] [] [.text "one"]]]

/-! ### Claim C1 -/

/-- Sections surviving the per-element loop never have a title containing
the references keyword. -/
theorem buildSections_no_refs :
    ∀ (l : List Node) (i : Nat) (s : Section), s ∈ buildSections i l →
      strIn "references" (pyLower s.title) = false := by
  intro l
  induction l with
  | nil => intro i s h; cases h
  | cons sec rest ih =>
    intro i s h
    rw [buildSections] at h
    by_cases hr : strIn "references" (pyLower (sectionTitleAt sec i)) = true
    · rw [if_pos hr] at h
      exact ih (i + 1) s h
    · rw [if_neg hr] at h
      by_cases hc : extract_content_from_section sec = ""
      · rw [if_pos hc] at h
        exact ih (i + 1) s h
      · rw [if_neg hc] at h
        rcases List.mem_cons.mp h with h1 | h1
        · subst h1
          exact Bool.not_eq_true _ ▸ (by simpa using hr)
        · exact ih (i + 1) s h1

/-- C1: for every input document, no section whose resolved title
case-insensitively contains the substring references appears in the section
list returned by extract_sections (the skip happens before content
extraction in buildSections, where the references test precedes the
extract_content_from_section call). -/
theorem c1_no_references_sections :
    ∀ (soup : Node) (s : Section), s ∈ (extract_sections soup).1 →
      strIn "references" (pyLower s.title) = false := by
  intro soup s h
  exact buildSections_no_refs (sectionNodes soup) 0 s h

/-- Witness for C1 on the concrete two-section page doc0: the single
retained section is the Clinical Features one and its title passes the
references test. -/
theorem c1_witness :
    strIn "references" (pyLower secClinRec.title) = false :=
  c1_no_references_sections doc0 secClinRec (List.Mem.head _)


/-! ### Claim C4 -/

/-- The title stored by the per-element loop coincides with the h3-or-
placeholder rule. -/
theorem sectionTitleAt_eq_specH3Title :
    ∀ (sec : Node) (i : Nat), sectionTitleAt sec i = specH3Title sec i := by
  intro sec i
  rw [sectionTitleAt, extract_section_title_from_element, specH3Title]
  cases h : findN (isTag "h3") sec with
  | none => rfl
  | some h3 =>
    by_cases ht : clean_text h3.getText = ""
    · simp [ht]
    · simp [ht]

/-- Titles of retained sections all follow the h3-or-placeholder rule of
their section node and position. -/
theorem buildSections_titles :
    ∀ (l : List Node) (k : Nat) (s : Section), s ∈ buildSections k l →
      ∃ j, j < l.length ∧ s.title = specH3Title (l.getD j (Node.text "")) (k + j) := by
  intro l
  induction l with
  | nil => intro k s h; cases h
  | cons sec rest ih =>
    intro k s h
    rw [buildSections] at h
    by_cases hr : strIn "references" (pyLower (sectionTitleAt sec k)) = true
    · rw [if_pos hr] at h
      obtain ⟨j, hj, ht⟩ := ih (k + 1) s h
      exact ⟨j + 1, by simpa using Nat.succ_lt_succ hj,
        by simpa [Nat.add_comm, Nat.add_assoc, Nat.add_left_comm] using ht⟩
    · rw [if_neg hr] at h
      by_cases hc : extract_content_from_section sec = ""
      · rw [if_pos hc] at h
        obtain ⟨j, hj, ht⟩ := ih (k + 1) s h
        exact ⟨j + 1, by simpa using Nat.succ_lt_succ hj,
          by simpa [Nat.add_comm, Nat.add_assoc, Nat.add_left_comm] using ht⟩
      · rw [if_neg hc] at h
        rcases List.mem_cons.mp h with h1 | h1
        · subst h1
          exact ⟨0, by simp, by simpa using sectionTitleAt_eq_specH3Title sec k⟩
        · obtain ⟨j, hj, ht⟩ := ih (k + 1) s h1
          exact ⟨j + 1, by simpa using Nat.succ_lt_succ hj,
            by simpa [Nat.add_comm, Nat.add_assoc, Nat.add_left_comm] using ht⟩

/-- C4 (amended): extract_sections resolves section titles using only the
third of the five strategies, namely the cleaned text of the first h3
anywhere in the section, falling back to the positional placeholder when
there is no such non-empty heading; the five-strategy resolver
extract_section_title exists in the source but is not invoked by
extract_sections. -/
theorem c4_pipeline_titles :
    (∀ (sec : Node) (i : Nat), sectionTitleAt sec i = specH3Title sec i) ∧
    (∀ (soup : Node) (s : Section), s ∈ (extract_sections soup).1 →
      ∃ j, j < (sectionNodes soup).length ∧
        s.title = specH3Title ((sectionNodes soup).getD j (Node.text "")) j) := by
  refine ⟨sectionTitleAt_eq_specH3Title, ?_⟩
  intro soup s h
  obtain ⟨j, hj, ht⟩ := buildSections_titles (sectionNodes soup) 0 s h
  exact ⟨j, hj, by simpa using ht⟩

/-- Counterexample for C4 as stated: on docC4 the fourth strategy of the
five-strategy cascade resolves the title Hello Everyone, but the pipeline
retains the section under the positional placeholder instead, so the
extracted title is not the first non-empty result of the five strategies. -/
theorem c4_counterexample :
    (extract_sections docC4).1 = [secC4Rec] ∧
    extract_section_title secC4 = some "Hello Everyone" ∧
    secC4Rec.title ≠ "Hello Everyone" :=
  ⟨rfl, rfl, by decide⟩

/-- Witness for C4 on docC4: the single extracted section's title follows
the h3-or-placeholder rule at its position. -/
theorem c4_witness :
    ∃ j, j < (sectionNodes docC4).length ∧
      secC4Rec.title = specH3Title ((sectionNodes docC4).getD j (Node.text "")) j :=
  c4_pipeline_titles.2 docC4 secC4Rec (List.Mem.head _)


/-! ### Claim C5 -/

/-- C5: format_output succeeds exactly on the three supported format
identifiers; for every section list and title it returns a rendered string
on those, and the unsupported-format error is raised on everything else. -/
theorem c5_format_output_ok_iff :
    ∀ (sections : List Section) (fmt : String) (title : Option String),
      (∃ out, format_output sections fmt title = .ok out) ↔
        (fmt = "text" ∨ fmt = "markdown" ∨ fmt = "html") := by
  intro sections fmt title
  rw [format_output]
  by_cases h1 : fmt = "text"
  · simp [h1]
  · rw [if_neg h1]
    by_cases h2 : fmt = "markdown"
    · simp [h2]
    · rw [if_neg h2]
      by_cases h3 : fmt = "html"
      · simp [h3]
      · rw [if_neg h3]
        simp [h1, h2, h3]

/-! ### Claim C3 -/

set_option maxRecDepth 100000 in
/-- C3 (code behaviour at the failing input): on a headerless table with two
body rows, the row-building phase emits no header row and both body rows,
but the final assembly renders the first body row as the header line and
drops the second body row, whose cell contents are absent from the output. -/
theorem c3_headerless_table_eval :
    headerRowStrings tblC3 = [] ∧
    bodyRowStrings tblC3 = ["| q | w |", "| x | z |"] ∧
    format_table_with_bullets tblC3 =
      "\n<table>\n<thead>\n<tr>\n<th> q </th>\n<th> w </th>\n</tr>\n</thead>\n<tbody>\n\n</tbody>\n</table>\n" ∧
    strIn "x" (format_table_with_bullets tblC3) = false ∧
    strIn "z" (format_table_with_bullets tblC3) = false :=
  ⟨rfl, rfl, rfl, rfl, rfl⟩


/-! ### Claim C7 -/

/-- The fallback tries coincide with the getD cascade over the strategy-two
and strategy-three values. -/
theorem articleTitleFallback_eq (soup : Node) :
    articleTitleFallback soup =
      (specHeaderHeading soup).getD ((specFirstH1 soup).getD "Medical Content") := by
  rw [articleTitleFallback, specHeaderHeading]
  cases hA : findN (hasAttrVal "data-e2e-test-id" "articleHeader") soup with
  | none =>
    rw [firstH1Title, specFirstH1]
    cases hH : findN (isTag "h1") soup with
    | none => rfl
    | some h1 =>
      by_cases ht : clean_text h1.getText = ""
      · simp [ht]
      · simp [ht]
  | some ah =>
    cases hE : headerTitleElem ah with
    | some e => simp [hE]
    | none =>
      rw [firstH1Title, specFirstH1]
      cases hH : findN (isTag "h1") soup with
      | none => simp [hE]
      | some h1 =>
        by_cases ht : clean_text h1.getText = ""
        · simp [hE, ht]
        · simp [hE, ht]

/-- C7 (amended): the document title cascade is: non-empty suffix-stripped
page title; else, when the article-header marker holds an h1, h2 or
title-classed element, that element's cleaned text even when it is empty;
else the first h1 when its cleaned text is non-empty; else the constant
fallback. -/
theorem c7_title_cascade :
    ∀ soup, extract_article_title_from_soup soup = specArticleTitle soup := by
  intro soup
  rw [extract_article_title_from_soup, specArticleTitle, specPageTitle]
  cases hT : findN (isTag "title") soup with
  | none => simpa using articleTitleFallback_eq soup
  | some tt =>
    by_cases h1 :
      (if endsWithStr " - AMBOSS" (pyStrip tt.getText)
        then pyStrip (dropLastN 9 (pyStrip tt.getText))
        else pyStrip tt.getText) = ""
    · simp only [h1, if_pos rfl]
      simpa [h1] using articleTitleFallback_eq soup
    · simp [h1]

/-- Counterexample for C7 as stated: on soupC7 the code returns the empty
string (the article-header h1 has no text, and its cleaned text is returned
without the non-emptiness check), while the first-non-empty cascade of the
claim would return the later document h1 text. -/
theorem c7_counterexample :
    extract_article_title_from_soup soupC7 = "" ∧
    specArticleTitleClaimed soupC7 = "Pneumonia" ∧
    ("" : String) ≠ "Pneumonia" :=
  ⟨rfl, rfl, by decide⟩


/-! ### Claim C8 -/

/-- C8: extract_image_info agrees with the specification rule on every
image span: protocol-relative URLs get the https prefix, path-absolute URLs
get the site origin, the caption cascade is title attribute, nested caption
text, constant placeholder, and the image is dropped when no URL resolves. -/
theorem c8_image_info_spec : ∀ span, extract_image_info span = specImageInfo span := by
  intro span
  rw [extract_image_info, specImageInfo]
  cases hI : findN (isTag "img") span with
  | none => rfl
  | some img =>
    by_cases hu : img.attrD "src" "" = ""
    · simp [hu]
    · by_cases ht : img.attrD "title" "" = ""
      · cases hS : findN (fun n => isTag "span" n ∧ hasClass "thumbnail__image__title" n) span with
        | none => simp [hu, ht, hS]
        | some sp =>
          by_cases hsp : sp.getText = ""
          · simp [hu, ht, hS, hsp]
          · simp [hu, ht, hS, hsp]
      · simp [hu, ht]

/-! ### Claim C9 -/

/-- A list filter is empty exactly when no member satisfies the filter. -/
theorem filter_isEmpty_iff_all {α : Type} (p : α → Bool) (l : List α) :
    (l.filter p).isEmpty = true ↔ ∀ a ∈ l, p a = false := by
  induction l with
  | nil => simp
  | cons a l ih =>
    cases hp : p a
    · simp only [List.filter_cons, hp, Bool.false_eq_true, if_false]
      rw [ih]
      constructor
      · intro hall b hb
        rcases List.mem_cons.mp hb with hb | hb
        · rw [hb]; exact hp
        · exact hall b hb
      · intro hall b hb
        exact hall b (List.mem_cons_of_mem a hb)
    · simp [List.filter_cons, hp]

/-- Strings longer than 20 characters are not empty. -/
theorem ne_empty_of_long {t : String} (h : 20 < t.length) : t ≠ "" := by
  intro he
  subst he
  simp at h

/-- Appending the paragraph markers never yields the empty string. -/
theorem wrapP_ne_empty (t : String) : "<p>" ++ t ++ "</p>" ≠ "" := by
  intro h
  have h2 : ("<p>" ++ t ++ "</p>").data = ([] : List Char) := congrArg String.data h
  exact List.noConfusion h2

/-- C9 (amended): for a child node matching none of the specific dispatch
rules, a paragraph is emitted iff the node is an element outside the
specially handled container classes, none of its DIRECT children is a
list/table/container element, and its cleaned text exceeds 20 characters;
in every other case the node contributes nothing. -/
theorem c9_generic_content :
    ∀ el, (extract_generic_content el ≠ "" ↔ specGenericEmit el) ∧
      (specGenericEmit el → extract_generic_content el = "<p>" ++ clean_text el.getText ++ "</p>") := by
  intro el
  cases el with
  | text s =>
    refine ⟨⟨fun h => absurd rfl h, fun h => h.elim⟩, fun h => h.elim⟩
  | elem nm cls attrs children =>
    rw [extract_generic_content, specGenericEmit]
    by_cases h1 : nm = "div" ∧ (["table-wrapper", "paragraph", "merke", "cave", "content-box"].any
        (fun c => cls.contains c)) = true
    · rw [if_pos h1]
      exact ⟨⟨fun h => absurd rfl h, fun hs => absurd h1 hs.1⟩, fun hs => absurd h1 hs.1⟩
    · rw [if_neg h1]
      by_cases h2 : (children.filter (tagIn ["ul", "table", "div"])).isEmpty = false
      · rw [if_pos h2]
        have hall : ¬ (∀ c ∈ children, tagIn ["ul", "table", "div"] c = false) := by
          intro hall
          rw [← filter_isEmpty_iff_all (tagIn ["ul", "table", "div"]) children] at hall
          rw [hall] at h2
          cases h2
        exact ⟨⟨fun h => absurd rfl h, fun hs => absurd hs.2.1 hall⟩,
          fun hs => absurd hs.2.1 hall⟩
      · rw [if_neg h2]
        have hall : ∀ c ∈ children, tagIn ["ul", "table", "div"] c = false := by
          rw [← filter_isEmpty_iff_all (tagIn ["ul", "table", "div"]) children]
          cases he : (children.filter (tagIn ["ul", "table", "div"])).isEmpty
          · exact absurd he h2
          · rfl
        by_cases h3 : 20 < (clean_text (Node.elem nm cls attrs children).getText).length
        · have hne := ne_empty_of_long h3
          have h10 : (clean_text (Node.elem nm cls attrs children).getText).length > 10 := by
            omega
          rw [if_pos (And.intro hne h10), if_pos h3]
          exact ⟨⟨fun _ => ⟨h1, hall, h3⟩, fun _ => wrapP_ne_empty _⟩, fun _ => rfl⟩
        · have hmp : ¬ (¬ (nm = "div" ∧ (["table-wrapper", "paragraph", "merke", "cave",
              "content-box"].any (fun c => cls.contains c)) = true) ∧
              (∀ c ∈ children, tagIn ["ul", "table", "div"] c = false) ∧
              (clean_text (Node.elem nm cls attrs children).getText).length > 20) :=
            fun hs => absurd hs.2.2 h3
          by_cases hne : clean_text (Node.elem nm cls attrs children).getText ≠ "" ∧
              (clean_text (Node.elem nm cls attrs children).getText).length > 10
          · rw [if_pos hne, if_neg h3]
            exact ⟨⟨fun h => absurd rfl h, fun hs => absurd hs hmp⟩, fun hs => absurd hs hmp⟩
          · rw [if_neg hne]
            exact ⟨⟨fun h => absurd rfl h, fun hs => absurd hs hmp⟩, fun hs => absurd hs hmp⟩

/-- Counterexample for C9 as stated: elC9 has a nested list descendant (so
the claim mandates dropping it), yet the code emits a paragraph, because it
only inspects direct children. -/
theorem c9_counterexample :
    extract_generic_content elC9 = "<p>twenty five characters of content here</p>" ∧
    hasComplexDesc elC9 = true ∧
    extract_generic_content elC9 ≠ "" :=
  ⟨rfl, rfl, by decide⟩

/-- Witness for C9 on a simple long-text element: the amended rule fires
and the paragraph is produced. -/
theorem c9_witness :
    extract_generic_content elC9good = "<p>a paragraph with plenty of characters</p>" :=
  (c9_generic_content elC9good).2 ⟨by decide, by decide, by decide⟩


/-! ### Claim C2 -/

/-- Splitting never yields an empty fragment list. -/
theorem splitOnC_ne_nil (d : Char) : ∀ l, splitOnC d l ≠ [] := by
  intro l
  induction l with
  | nil => intro h; cases h
  | cons c cs ih =>
    rw [splitOnC]
    by_cases hc : c = d
    · rw [if_pos hc]; intro h; cases h
    · rw [if_neg hc]
      cases hs : splitOnC d cs with
      | nil => exact absurd hs ih
      | cons f rest => intro h; cases h

/-- The number of fragments is one more than the number of delimiters. -/
theorem splitOnC_length (d : Char) : ∀ l, (splitOnC d l).length = l.count d + 1 := by
  intro l
  induction l with
  | nil => rfl
  | cons c cs ih =>
    rw [splitOnC]
    by_cases hc : c = d
    · rw [if_pos hc, List.length_cons, ih]
      subst hc
      rw [List.count_cons_self]
    · rw [if_neg hc]
      cases hs : splitOnC d cs with
      | nil => exact absurd hs (splitOnC_ne_nil d cs)
      | cons f rest =>
        rw [List.length_cons]
        have := ih
        rw [hs, List.length_cons] at this
        rw [List.count_cons_of_ne (fun h => hc h.symm) cs, this]

/-- Delimiter counting distributes over string append. -/
theorem countPipe_append (a b : String) : countPipe (a ++ b) = countPipe a + countPipe b := by
  show ((a ++ b).data).count '|' = a.data.count '|' + b.data.count '|'
  rw [show (a ++ b).data = a.data ++ b.data from rfl, List.count_append]

/-- Delimiters in a joined cell list: one per separator plus those inside
the cells. -/
theorem joinSep_countPipe :
    ∀ (cs : List String) (c : String),
      countPipe (joinSep " | " (c :: cs)) = cs.length + countPipe c + (cs.map countPipe).sum := by
  intro cs
  induction cs with
  | nil => intro c; simp [joinSep]
  | cons c2 cs2 ih =>
    intro c
    have hj : joinSep " | " (c :: c2 :: cs2) = c ++ " | " ++ joinSep " | " (c2 :: cs2) := rfl
    rw [hj, countPipe_append, countPipe_append, ih c2]
    have h1 : countPipe " | " = 1 := rfl
    rw [h1]
    simp [List.map_cons]
    omega

/-- Delimiters in a rendered row: the two borders, one per separator, and
those carried inside the rendered cells. -/
theorem rowString_countPipe (c : String) (cs : List String) :
    countPipe (rowString (c :: cs)) = 2 + (cs.length + countPipe c + (cs.map countPipe).sum) := by
  rw [rowString, countPipe_append, countPipe_append, joinSep_countPipe]
  have h1 : countPipe "| " = 1 := rfl
  have h2 : countPipe " |" = 1 := rfl
  rw [h1, h2]
  omega

/-- The escape step keeps every delimiter occurrence (it only inserts a
backslash in front of each one). -/
theorem escPipes_count : ∀ l : List Char, (escPipes l).count '|' = l.count '|' := by
  intro l
  induction l with
  | nil => rfl
  | cons c cs ih =>
    rw [escPipes]
    by_cases hc : c = '|'
    · rw [if_pos hc]
      subst hc
      rw [List.count_cons_of_ne (by decide), List.count_cons_self, List.count_cons_self, ih]
    · rw [if_neg hc, List.count_cons_of_ne (fun h => hc h.symm), List.count_cons_of_ne (fun h => hc h.symm), ih]

/-- The newline replacement never touches delimiters. -/
theorem nlToSpace_count : ∀ l : List Char, (nlToSpace l).count '|' = l.count '|' := by
  intro l
  induction l with
  | nil => rfl
  | cons c cs ih =>
    show List.count '|' (List.map _ (c :: cs)) = _
    rw [List.map_cons]
    by_cases hc : c = '|'
    · subst hc
      rw [if_neg (by decide), List.count_cons_self, List.count_cons_self]
      exact congrArg (· + 1) ih
    · by_cases hn : c = '\n'
      · rw [if_pos hn, List.count_cons_of_ne (by decide), List.count_cons_of_ne (fun h => hc h.symm)]
        exact ih
      · rw [if_neg hn, List.count_cons_of_ne (fun h => hc h.symm), List.count_cons_of_ne (fun h => hc h.symm)]
        exact ih

/-- C2 (amended): escaping only prefixes a backslash and keeps the delimiter
character, so splitting a rendered body row on the delimiter (discarding the
border fragments, as the final assembly does) yields the original column
count plus one extra column per delimiter occurrence carried in the rendered
cell texts; the count is the original one exactly when no cell text contains
the delimiter. -/
theorem c2_escaped_split_count :
    ∀ (cells : List String), cells ≠ [] →
      renderedColCount (rowString cells) = cells.length + (cells.map countPipe).sum ∧
      (∀ t : String, countPipe (String.mk (escPipes (nlToSpace t.data))) = countPipe t) := by
  intro cells hne
  constructor
  · cases cells with
    | nil => exact absurd rfl hne
    | cons c cs =>
      show ((((splitOnC '|' (rowString (c :: cs)).data).drop 1).dropLast).map String.mk).length = _
      rw [List.length_map, List.length_dropLast, List.length_drop, splitOnC_length]
      have hc : (rowString (c :: cs)).data.count '|' = countPipe (rowString (c :: cs)) := rfl
      rw [hc, rowString_countPipe]
      simp [List.map_cons]
      omega
  · intro t
    show (escPipes (nlToSpace t.data)).count '|' = t.data.count '|'
    rw [escPipes_count, nlToSpace_count]

/-- Witness for C2 (amended) at a two-cell row whose first cell carries one
escaped delimiter: the recovered column count is the cell count plus one. -/
theorem c2_witness :
    renderedColCount (rowString ["a\\|b", "c"]) = ["a\\|b", "c"].length + (["a\\|b", "c"].map countPipe).sum ∧
    (∀ t : String, countPipe (String.mk (escPipes (nlToSpace t.data))) = countPipe t) :=
  c2_escaped_split_count ["a\\|b", "c"] (by decide)


/-- Counterexample for C2 as stated: the row rendered for trC2 (two source
cells, one containing the delimiter) splits into three columns, not two,
because the escape keeps the delimiter character in the cell text. -/
theorem c2_counterexample :
    (collectN (tagIn ["td", "th"]) trC2).length = 2 ∧
    tableRowStrings tblC2 = ["| a\\|b | c |"] ∧
    renderedColCount "| a\\|b | c |" = 3 ∧
    (3 : Nat) ≠ 2 :=
  ⟨rfl, rfl, rfl, by decide⟩

/-! ### Claim C6 -/

/-- Serialization of a mapped item list as a flat map. -/
theorem serializeL_map (f : Node → LItem) :
    ∀ l : List Node, serializeL (l.map f) = l.flatMap (fun x => serializeItem (f x)) := by
  intro l
  induction l with
  | nil => rfl
  | cons a l ih => rw [List.map_cons, List.flatMap_cons, serializeL, ih]

/-- The fueled list formatter produces exactly the depth-first serialization
of the fueled specification model, at every fuel value. -/
theorem plF_eq_serialize : ∀ (fuel : Nat) (ul : Node),
    plF fuel ul = serializeL (specItemsF fuel ul) := by
  intro fuel
  induction fuel with
  | zero => intro ul; rfl
  | succ fuel ih =>
    intro ul
    rw [plF, specItemsF, serializeL_map]
    have hfun : ∀ li : Node,
        ((if liText li = "" then ["<li>"] else ["<li>" ++ liText li]) ++
          (match firstUl li.childrenL with
           | some u => ["<ul>"] ++ plF fuel u ++ ["</ul>"]
           | none => []) ++
          ["</li>"]) =
        serializeItem
          (match firstUl li.childrenL with
           | some u => LItem.node (liText li) (specItemsF fuel u)
           | none => LItem.leaf (liText li)) := by
      intro li
      cases hu : firstUl li.childrenL with
      | some u => simp [serializeItem, ih u]
      | none => simp [serializeItem]
    rw [funext hfun]

/-- C6: process_list agrees with the specification model: each item's text
is the space-joined content before its first directly nested list, that
nested list is recursed as the item's children in source order, and the
emitted tag sequence is precisely the depth-first flattening of the model,
reproducing item order and nesting. -/
theorem c6_process_list_serializes :
    ∀ ul : Node, process_list ul = serializeL (specListItems ul) := by
  intro ul
  exact plF_eq_serialize ul.size ul


/-! ### Claim C10 -/

/-- The first nested list found among the children is the first ul after a
ul-free run, whatever follows it. -/
theorem firstUl_skip :
    ∀ (pre : List Node) (u : Node) (rest : List Node),
      (∀ n ∈ pre, isUl n = false) → isUl u = true →
      firstUl (pre ++ u :: rest) = some u := by
  intro pre
  induction pre with
  | nil =>
    intro u rest hpre hu
    rw [List.nil_append, firstUl, if_pos hu]
  | cons p ps ih =>
    intro u rest hpre hu
    rw [List.cons_append, firstUl, if_neg]
    · exact ih u rest (fun n hn => hpre n (List.mem_cons_of_mem p hn)) hu
    · rw [hpre p (List.mem_cons_self p ps)]
      intro h
      cases h

/-- The direct text parts stop at the first ul, so nothing after it
matters. -/
theorem textParts_skip :
    ∀ (pre : List Node) (u : Node) (rest rest2 : List Node),
      (∀ n ∈ pre, isUl n = false) → isUl u = true →
      textPartsUntilUl (pre ++ u :: rest) = textPartsUntilUl (pre ++ u :: rest2) := by
  intro pre
  induction pre with
  | nil =>
    intro u rest rest2 hpre hu
    rw [List.nil_append, List.nil_append, textPartsUntilUl, textPartsUntilUl, if_pos hu, if_pos hu]
  | cons p ps ih =>
    intro u rest rest2 hpre hu
    have hp : isUl p = false := hpre p (List.mem_cons_self p ps)
    have hrec := ih u rest rest2 (fun n hn => hpre n (List.mem_cons_of_mem p hn)) hu
    rw [List.cons_append, List.cons_append, textPartsUntilUl, textPartsUntilUl, hp, hrec]

/-- C10: when a list item has several directly nested sub-lists, only the
first is recursed and attached; the later sibling sub-lists (and anything
else after the first one) contribute nothing, both in the standalone list
formatter and in the table-cell list renderer. -/
theorem c10_later_sublists_dropped :
    ∀ (fuel : Nat) (tag : String) (cls lcls : List String)
      (attrs lattrs : List (String × String)) (pre rest others : List Node) (u : Node)
      (glyph ind : String),
      (∀ n ∈ pre, isUl n = false) → isUl u = true →
      (plF fuel (Node.elem tag cls attrs (Node.elem "li" lcls lattrs (pre ++ u :: rest) :: others)) =
       plF fuel (Node.elem tag cls attrs (Node.elem "li" lcls lattrs (pre ++ [u]) :: others))) ∧
      (cellLiF fuel glyph ind (Node.elem "li" lcls lattrs (pre ++ u :: rest)) =
       cellLiF fuel glyph ind (Node.elem "li" lcls lattrs (pre ++ [u]))) := by
  intro fuel tag cls lcls attrs lattrs pre rest others u glyph ind hpre hu
  have hfu1 : firstUl (pre ++ u :: rest) = some u := firstUl_skip pre u rest hpre hu
  have hfu2 : firstUl (pre ++ [u]) = some u := firstUl_skip pre u [] hpre hu
  have htp : textPartsUntilUl (pre ++ u :: rest) = textPartsUntilUl (pre ++ [u]) :=
    textParts_skip pre u rest [] hpre hu
  cases fuel with
  | zero => exact ⟨rfl, rfl⟩
  | succ fuel =>
    constructor
    · rw [plF, plF]
      rw [show (Node.elem tag cls attrs (Node.elem "li" lcls lattrs (pre ++ u :: rest) :: others)).childrenL
          = Node.elem "li" lcls lattrs (pre ++ u :: rest) :: others from rfl,
        show (Node.elem tag cls attrs (Node.elem "li" lcls lattrs (pre ++ [u]) :: others)).childrenL
          = Node.elem "li" lcls lattrs (pre ++ [u]) :: others from rfl]
      have hfL : List.filter isLi (Node.elem "li" lcls lattrs (pre ++ u :: rest) :: others)
          = Node.elem "li" lcls lattrs (pre ++ u :: rest) :: List.filter isLi others := rfl
      have hfR : List.filter isLi (Node.elem "li" lcls lattrs (pre ++ [u]) :: others)
          = Node.elem "li" lcls lattrs (pre ++ [u]) :: List.filter isLi others := rfl
      rw [hfL, hfR, List.flatMap_cons, List.flatMap_cons]
      congr 1
      simp only [liText, Node.childrenL, htp, hfu1, hfu2]
    · rw [cellLiF, cellLiF]
      simp only [Node.childrenL, htp, hfu1, hfu2]

/-- Witness for C10 on a concrete item with two directly nested sub-lists:
both renderers give the same output as for the one-sub-list item. -/
theorem c10_witness :
    (plF 5 (Node.elem "ul" [] [] [liTwoSubs]) = plF 5 (Node.elem "ul" [] [] [liOneSub])) ∧
    (cellLiF 5 "•" "" liTwoSubs = cellLiF 5 "•" "" liOneSub) :=
  c10_later_sublists_dropped 5 "ul" [] [] [] [] [Node.text "tip"]
    [Node.elem "ul" [] [] [Node.elem "li" [] [] [Node.text "two"]]] []
    (Node.elem "ul" [] [] [Node.elem "li" [] [] [Node.text "one"]]) "•" ""
    (by intro n hn; cases hn with
      | head => rfl
      | tail _ h => cases h)
    rfl

